import Mathlib

/-!
Shallow embedding of the plugin runtime of `crates/plugin_system/src/lib.rs`
(Video-ToolKit). Rust `HashMap`s are modelled as association lists with
unique keys, the `libloading::Library` values as their map keys (presence in
the map is what the claims observe), and a `dyn Plugin` trait object as a
behaviour record `PluginImpl`. Operations additionally emit a trace of
resource events (`shutdown` calls, instance drops, library drops) in the
exact order the Rust code performs them, including the implicit drops Rust
inserts at end of statement and end of scope.
-/

/-- Errors of the plugin system, mirroring the `PluginError` enum. -/
inductive PluginError
  | loadError (msg : String)
  | initError (msg : String)
  | invalidPlugin (msg : String)
  | notFound (name : String)
  | incompatibleVersion (name : String)
  deriving DecidableEq, Repr

/-- Mirrors `PLUGIN_API_VERSION: u32 = 1`. -/
def PLUGIN_API_VERSION : Nat := 1

/-- Mirrors the `PluginMetadata` struct. -/
structure PluginMetadata where
  name : String
  version : String
  author : String
  description : String
  api_version : Nat
  deriving DecidableEq, Repr

/-- Mirrors the `ParameterType` enum. -/
inductive ParameterType
  | string
  | integer
  | float
  | boolean
  | filePath
  | directoryPath
  deriving DecidableEq, Repr

/-- Mirrors the `ParameterInfo` struct. -/
structure ParameterInfo where
  name : String
  description : String
  required : Bool
  default_value : Option String
  parameter_type : ParameterType
  deriving DecidableEq, Repr

/-- Behaviour of one `dyn Plugin` trait object: the results its methods
return. Plugin implementations are third-party code behind the trait; the
host only observes these results. -/
structure PluginImpl where
  metadata : PluginMetadata
  initResult : Except String Unit
  executeRes : List (String × String) → Except String Unit
  paramInfo : List ParameterInfo
  shutdownRes : Except String Unit

/-- What `load_plugin` finds at a path: the library fails to open, the
`create_plugin` symbol is missing, the constructor returns a null pointer,
or a plugin instance is obtained. -/
inductive LibFile
  | openFail (msg : String)
  | missingSymbol (msg : String)
  | nullConstructor
  | valid (p : PluginImpl)

/-- Resource events, in the order the Rust code performs them:
a `shutdown()` call on an instance (with its success flag), the drop of a
plugin instance (`Box<dyn Plugin>`), and the drop of a `Library`
(which unmaps it). -/
inductive Event
  | shutdownCall (name : String) (ok : Bool)
  | dropInstance (name : String)
  | dropLibrary (name : String)
  deriving DecidableEq, Repr

/-- Mirrors the `PluginManager` struct: the `plugins` map, the `libraries`
map (only its key set is observable) and the configured directories. -/
structure PluginManager where
  plugins : List (String × PluginImpl)
  libraries : List String
  plugin_dirs : List String

/-- Lookup in the plugins association list (`HashMap::get`). -/
def lookupP : List (String × PluginImpl) → String → Option PluginImpl
  | [], _ => none
  | (k, v) :: rest, n => if k = n then some v else lookupP rest n

/-- `HashMap::insert` on the plugins map: replaces the entry for an existing
key in place, otherwise appends. -/
def insertPlugin : List (String × PluginImpl) → String → PluginImpl →
    List (String × PluginImpl)
  | [], k, v => [(k, v)]
  | (k', v') :: rest, k, v =>
      if k' = k then (k, v) :: rest else (k', v') :: insertPlugin rest k v

/-- `HashMap::remove` on the plugins map: the removed value (if any) and the
remaining map. -/
def removeEntry : List (String × PluginImpl) → String →
    Option PluginImpl × List (String × PluginImpl)
  | [], _ => (none, [])
  | (k', v) :: rest, k =>
      if k' = k then (some v, rest)
      else
        let r := removeEntry rest k
        (r.1, (k', v) :: r.2)

/-- `HashMap::insert` on the libraries map, restricted to its key set. -/
def insertKey (l : List String) (k : String) : List String :=
  if k ∈ l then l else l ++ [k]

/-- Key list of the plugins map. -/
def keys (m : List (String × PluginImpl)) : List String := m.map Prod.fst

/-- Mirrors `PluginManager::new`: always `Ok`, empty maps, and the single
default directory `"plugins"`. -/
def PluginManager.new : Except PluginError PluginManager :=
  Except.ok { plugins := [], libraries := [], plugin_dirs := ["plugins"] }

/-- Mirrors `PluginManager::load_plugin`. Returns the `Result`, the manager
state afterwards (mutations via `&self` persist even when an error is
returned) and the trace of resource events on previously-registered
plugins. The stages are in source order: open the library, resolve
`create_plugin`, null check, `initialize()`, API-version check, then insert
into `plugins` and `libraries` (a `HashMap::insert` over an existing key
drops the replaced plugin box and then the replaced library, with no
`shutdown` call). -/
def load_plugin (m : PluginManager) (f : LibFile) :
    Except PluginError Unit × PluginManager × List Event :=
  match f with
  | .openFail msg => (Except.error (PluginError.loadError msg), m, [])
  | .missingSymbol msg =>
      (Except.error (PluginError.invalidPlugin
        ("Missing create_plugin symbol: " ++ msg)), m, [])
  | .nullConstructor =>
      (Except.error (PluginError.initError "Plugin creation returned null"), m, [])
  | .valid p =>
      match p.initResult with
      | .error e => (Except.error (PluginError.initError e), m, [])
      | .ok _ =>
          if p.metadata.api_version ≠ PLUGIN_API_VERSION then
            (Except.error (PluginError.incompatibleVersion p.metadata.name), m, [])
          else
            let name := p.metadata.name
            let evOldInst : List Event :=
              match lookupP m.plugins name with
              | some _ => [Event.dropInstance name]
              | none => []
            let evOldLib : List Event :=
              if name ∈ m.libraries then [Event.dropLibrary name] else []
            (Except.ok (),
             { m with plugins := insertPlugin m.plugins name p,
                      libraries := insertKey m.libraries name },
             evOldInst ++ evOldLib)

/-- Mirrors `PluginManager::with_plugin`. -/
def with_plugin {R : Type} (m : PluginManager) (name : String)
    (f : PluginImpl → R) : Option R :=
  (lookupP m.plugins name).map f

/-- Mirrors `PluginManager::get_plugin_parameters`. -/
def get_plugin_parameters (m : PluginManager) (name : String) :
    Option (List ParameterInfo) :=
  with_plugin m name (fun p => p.paramInfo)

/-- Result of `execute_plugin`: `Ok(())`, an error coming from the plugin's
own `execute`, or a host error (`Box::new(PluginError::NotFound(..))`). -/
inductive ExecResult
  | ok
  | execFail (msg : String)
  | hostErr (e : PluginError)
  deriving DecidableEq, Repr

/-- Mirrors `PluginManager::execute_plugin`. -/
def execute_plugin (m : PluginManager) (name : String)
    (params : List (String × String)) : ExecResult :=
  match with_plugin m name (fun p => p.executeRes params) with
  | some (.ok _) => ExecResult.ok
  | some (.error e) => ExecResult.execFail e
  | none => ExecResult.hostErr (PluginError.notFound name)

/-- Mirrors `PluginManager::get_all_plugin_metadata`. -/
def get_all_plugin_metadata (m : PluginManager) : List PluginMetadata :=
  m.plugins.map (fun e => e.2.metadata)

/-- Mirrors `PluginManager::unload_plugin`, with the drops Rust performs
implicitly. On the success path the source removes the plugin from the map,
calls `shutdown()`, removes (and thereby drops) the `Library` at the
`libraries.remove(name)` statement, and only at end of scope drops the
local plugin box — so the library-drop event precedes the instance-drop
event. On a `shutdown()` error the `?` operator returns early: the plugin
box is dropped at scope exit but `libraries` is never touched. -/
def unload_plugin (m : PluginManager) (name : String) :
    Except PluginError Unit × PluginManager × List Event :=
  match removeEntry m.plugins name with
  | (none, _) => (Except.error (PluginError.notFound name), m, [])
  | (some p, rest) =>
      match p.shutdownRes with
      | .error e =>
          (Except.error (PluginError.initError e),
           { m with plugins := rest },
           [Event.shutdownCall name false, Event.dropInstance name])
      | .ok _ =>
          let evLib : List Event :=
            if name ∈ m.libraries then [Event.dropLibrary name] else []
          (Except.ok (),
           { m with plugins := rest, libraries := m.libraries.erase name },
           [Event.shutdownCall name true] ++ evLib ++ [Event.dropInstance name])

/-- Mirrors the body of `impl Drop for PluginManager`: collect the plugin
names, then call `unload_plugin` on each, discarding the results. -/
def dropBody (m : PluginManager) : PluginManager × List Event :=
  (m.plugins.map Prod.fst).foldl
    (fun acc n =>
      let r := unload_plugin acc.1 n
      (r.2.1, acc.2 ++ r.2.2))
    (m, [])

/-- One directory entry as `discover_plugins` sees it: its file stem, its
extension, and what loading it as a library yields. -/
structure FileEntry where
  stem : String
  ext : Option String
  file : LibFile

/-- State of one configured directory: missing (or not a directory),
unreadable (`read_dir` failed), or readable with its entries. -/
inductive DirEntry
  | missing
  | unreadable
  | readable (entries : List FileEntry)

/-- Inner loop of `discover_plugins` over one readable directory: for each
entry with the platform library extension (`"so"` on Linux), attempt
`load_plugin`; on failure push the error; on success look the plugin up
under the file stem (`path.file_stem()`) and push its metadata only when a
plugin is registered under that name. -/
def discoverDir (st : PluginManager × List (Except PluginError PluginMetadata))
    (entries : List FileEntry) :
    PluginManager × List (Except PluginError PluginMetadata) :=
  entries.foldl
    (fun acc e =>
      if e.ext = some "so" then
        let r := load_plugin acc.1 e.file
        match r.1 with
        | .ok _ =>
            match with_plugin r.2.1 e.stem (fun p => p.metadata) with
            | some md => (r.2.1, acc.2 ++ [Except.ok md])
            | none => (r.2.1, acc.2)
        | .error err => (r.2.1, acc.2 ++ [Except.error err])
      else acc)
    st

/-- Mirrors `PluginManager::discover_plugins`, taking the resolved state of
each configured directory in configuration order. Missing and unreadable
directories are skipped silently (`continue` / `if let Ok`). -/
def discover_plugins (m : PluginManager) (dirs : List DirEntry) :
    PluginManager × List (Except PluginError PluginMetadata) :=
  dirs.foldl
    (fun acc d =>
      match d with
      | .missing => acc
      | .unreadable => acc
      | .readable es => discoverDir acc es)
    (m, [])

/-- Recognizes a `shutdown` call event for the given plugin name. -/
def isShutdownFor (name : String) : Event → Bool
  | .shutdownCall n _ => n == name
  | _ => false

/-- Number of `shutdown()` calls for `name` in a trace. -/
def shutdownCount (tr : List Event) (name : String) : Nat :=
  (tr.filter (isShutdownFor name)).length

/-! Concrete instances used by evaluation theorems and witnesses. -/

/-- Metadata of a well-behaved test plugin named `"p"`. -/
def okMeta : PluginMetadata :=
  { name := "p", version := "0.1.0", author := "a", description := "d",
    api_version := 1 }

/-- A well-behaved plugin: initialize, execute and shutdown all succeed. -/
def okPlugin : PluginImpl :=
  { metadata := okMeta, initResult := Except.ok (),
    executeRes := fun _ => Except.ok (), paramInfo := [],
    shutdownRes := Except.ok () }

/-- A plugin identical to `okPlugin` except its `shutdown()` fails. -/
def badShutdownPlugin : PluginImpl :=
  { okPlugin with shutdownRes := Except.error "boom" }

/-- A plugin reporting API version 2 while the runtime supports 1. -/
def v2Plugin : PluginImpl :=
  { okPlugin with metadata := { okMeta with api_version := 2 } }

/-- A plugin in a file whose stem is `"foo"` but whose metadata name is
`"bar"`. -/
def mismatchPlugin : PluginImpl :=
  { okPlugin with metadata := { okMeta with name := "bar" } }

/-- A plugin whose metadata name is `"foo"`. -/
def fooPlugin : PluginImpl :=
  { okPlugin with metadata := { okMeta with name := "foo" } }

/-- A manager already holding the plugin registered under `"foo"`. -/
def fooState : PluginManager :=
  { plugins := [("foo", fooPlugin)], libraries := ["foo"],
    plugin_dirs := ["plugins"] }

/-- A fresh manager, as `PluginManager::new` builds it. -/
def mgr0 : PluginManager :=
  { plugins := [], libraries := [], plugin_dirs := ["plugins"] }

/-- A manager holding the well-behaved plugin `"p"` and its library. -/
def okState : PluginManager :=
  { plugins := [("p", okPlugin)], libraries := ["p"],
    plugin_dirs := ["plugins"] }

/-- A manager holding the failing-shutdown plugin `"p"` and its library. -/
def badState : PluginManager :=
  { plugins := [("p", badShutdownPlugin)], libraries := ["p"],
    plugin_dirs := ["plugins"] }

/-! Helper lemmas about the association-list maps. -/

theorem lookupP_insertPlugin_self (m : List (String × PluginImpl))
    (k : String) (v : PluginImpl) : lookupP (insertPlugin m k v) k = some v := by
  induction m with
  | nil => simp [insertPlugin, lookupP]
  | cons hd tl ih =>
      by_cases h : hd.1 = k
      · simp [insertPlugin, h, lookupP]
      · simp only [insertPlugin]
        rw [if_neg h]
        simp [lookupP, h, ih]

theorem removeEntry_fst (m : List (String × PluginImpl)) (k : String) :
    (removeEntry m k).1 = lookupP m k := by
  induction m with
  | nil => simp [removeEntry, lookupP]
  | cons hd tl ih =>
      by_cases h : hd.1 = k
      · simp [removeEntry, lookupP, h]
      · simp [removeEntry, lookupP, h, ih]

theorem lookupP_eq_none_of_not_mem (m : List (String × PluginImpl))
    (k : String) (h : k ∉ keys m) : lookupP m k = none := by
  induction m with
  | nil => simp [lookupP]
  | cons hd tl ih =>
      simp only [keys, List.map_cons, List.mem_cons] at h
      push_neg at h
      simp only [lookupP]
      rw [if_neg (fun hk => h.1 hk.symm)]
      exact ih (by simpa [keys] using h.2)

theorem lookupP_removeEntry_self (m : List (String × PluginImpl))
    (k : String) (hnd : (keys m).Nodup) :
    lookupP (removeEntry m k).2 k = none := by
  induction m with
  | nil => simp [removeEntry, lookupP]
  | cons hd tl ih =>
      simp only [keys, List.map_cons, List.nodup_cons] at hnd
      by_cases h : hd.1 = k
      · simp only [removeEntry]
        rw [if_pos h]
        exact lookupP_eq_none_of_not_mem tl k (h ▸ hnd.1)
      · simp only [removeEntry]
        rw [if_neg h]
        simp only [lookupP]
        rw [if_neg h]
        exact ih hnd.2

theorem mem_keys_insertPlugin (m : List (String × PluginImpl))
    (k : String) (v : PluginImpl) (a : String) :
    a ∈ keys (insertPlugin m k v) ↔ a = k ∨ a ∈ keys m := by
  induction m with
  | nil => simp [insertPlugin, keys, eq_comm]
  | cons hd tl ih =>
      by_cases h : hd.1 = k
      · simp only [insertPlugin]
        rw [if_pos h]
        simp [keys, h, eq_comm]
      · simp only [insertPlugin]
        rw [if_neg h]
        simp only [keys, List.map_cons, List.mem_cons] at ih ⊢
        rw [ih]
        tauto

theorem nodup_keys_insertPlugin (m : List (String × PluginImpl))
    (k : String) (v : PluginImpl) (hnd : (keys m).Nodup) :
    (keys (insertPlugin m k v)).Nodup := by
  induction m with
  | nil => simp [insertPlugin, keys]
  | cons hd tl ih =>
      simp only [keys, List.map_cons, List.nodup_cons] at hnd
      by_cases h : hd.1 = k
      · simp only [insertPlugin]
        rw [if_pos h]
        simp only [keys, List.map_cons, List.nodup_cons]
        exact ⟨h ▸ hnd.1, hnd.2⟩
      · simp only [insertPlugin]
        rw [if_neg h]
        simp only [keys, List.map_cons, List.nodup_cons]
        refine ⟨?_, ih hnd.2⟩
        intro hmem
        rcases (mem_keys_insertPlugin tl k v hd.1).mp hmem with heq | hold
        · exact h heq
        · exact hnd.1 hold

theorem shutdownCount_append (a b : List Event) (n : String) :
    shutdownCount (a ++ b) n = shutdownCount a n + shutdownCount b n := by
  simp [shutdownCount, List.filter_append]

/-! Claim theorems. -/

/-- C1. The claim states that unloading a plugin calls `shutdown()`, then
drops the instance, and only afterwards releases the library, the library
never being released while the instance is alive. The source does the
opposite on the success path: `libraries.remove(name)` drops the `Library`
at that statement, while the local plugin box is dropped only at end of
scope, so the trace of a successful unload is
`[shutdownCall, dropLibrary, dropInstance]` — the library is released while
the instance is still alive. -/
theorem c1_unload_releases_library_before_instance :
    unload_plugin okState "p" =
      (Except.ok (),
       { plugins := [], libraries := [], plugin_dirs := ["plugins"] },
       [Event.shutdownCall "p" true, Event.dropLibrary "p",
        Event.dropInstance "p"]) := rfl

/-- C2. The claim states that a failing `shutdown()` still results in the
library being removed and dropped. In the source the `?` on
`plugin.shutdown()` returns early, before `libraries.remove(name)` runs:
for the registered plugin `"p"` whose shutdown fails, `unload_plugin`
returns the error but the library map still holds `"p"`. -/
theorem c2_shutdown_error_leaves_library_mapped :
    (unload_plugin badState "p").1 =
        Except.error (PluginError.initError "boom")
    ∧ (unload_plugin badState "p").2.1.libraries = ["p"] :=
  ⟨rfl, rfl⟩

/-- C3. The claim states that destroying a manager with N registered
plugins calls `shutdown()` on each (some possibly failing) and leaves zero
libraries in the library map. Running the `Drop` body on a manager holding
one plugin whose shutdown fails does call `shutdown()` once, but the
library map afterwards still holds that plugin's library. -/
theorem c3_drop_leaves_failed_library_in_map :
    shutdownCount (dropBody badState).2 "p" = 1
    ∧ (dropBody badState).1.libraries = ["p"] :=
  ⟨rfl, rfl⟩

/-- C9. `PluginManager::new` always returns `Ok`, and the manager it
returns has an empty plugin map, an empty library map, and the single
configured search directory `"plugins"`. -/
theorem c9_new_manager_defaults :
    PluginManager.new =
      Except.ok { plugins := [], libraries := [],
                  plugin_dirs := ["plugins"] } := rfl

/-- C8. The three loader-stage failures of `load_plugin` produce the errors
the spec names — library-open failure yields the load error, a missing
`create_plugin` entry point yields the invalid-plugin error, a null
constructor result yields the init-failure error — and each aborts the load
with the manager state unchanged (nothing registered). -/
theorem c8_loader_stage_errors (m : PluginManager) (msg : String) :
    load_plugin m (LibFile.openFail msg) =
        (Except.error (PluginError.loadError msg), m, [])
    ∧ load_plugin m (LibFile.missingSymbol msg) =
        (Except.error (PluginError.invalidPlugin
          ("Missing create_plugin symbol: " ++ msg)), m, [])
    ∧ load_plugin m LibFile.nullConstructor =
        (Except.error (PluginError.initError "Plugin creation returned null"),
         m, []) :=
  ⟨rfl, rfl, rfl⟩

/-- First plugin reporting metadata name `"x"`. -/
def xPlugin1 : PluginImpl :=
  { okPlugin with metadata := { okMeta with name := "x", version := "1.0.0" } }

/-- A second, distinct plugin also reporting metadata name `"x"`. -/
def xPlugin2 : PluginImpl :=
  { okPlugin with metadata := { okMeta with name := "x", version := "2.0.0" } }

/-- `load_plugin` never emits a `shutdown` call event: on the replace path
the old plugin box and library are dropped without `shutdown()` running. -/
theorem shutdownCount_load_plugin (m : PluginManager) (f : LibFile)
    (n : String) : shutdownCount (load_plugin m f).2.2 n = 0 := by
  cases f with
  | openFail msg => rfl
  | missingSymbol msg => rfl
  | nullConstructor => rfl
  | valid p =>
      cases hi : p.initResult with
      | error e => simp [load_plugin, hi, shutdownCount]
      | ok u =>
          by_cases hv : p.metadata.api_version ≠ PLUGIN_API_VERSION
          · simp [load_plugin, hi, hv, shutdownCount]
          · cases hl : lookupP m.plugins p.metadata.name <;>
              by_cases hm : p.metadata.name ∈ m.libraries <;>
              simp [load_plugin, hi, hv, hl, hm, shutdownCount, isShutdownFor]

/-- C4 counterexample. Loading two distinct library files that both report
metadata name `"x"`: the second load is not rejected (it returns `Ok`, and
`PluginError` has no `AlreadyExists` variant at all), and the first plugin
is not retired — no `shutdown()` call occurs in either load's trace; the
source silently replaces the first plugin. This falsifies both arms of the
claimed policy disjunction. -/
theorem c4_duplicate_load_counterexample :
    (load_plugin (load_plugin mgr0 (LibFile.valid xPlugin1)).2.1
        (LibFile.valid xPlugin2)).1 = Except.ok ()
    ∧ shutdownCount ((load_plugin mgr0 (LibFile.valid xPlugin1)).2.2
        ++ (load_plugin (load_plugin mgr0 (LibFile.valid xPlugin1)).2.1
              (LibFile.valid xPlugin2)).2.2) "x" = 0
    ∧ lookupP (load_plugin (load_plugin mgr0 (LibFile.valid xPlugin1)).2.1
        (LibFile.valid xPlugin2)).2.1.plugins "x" = some xPlugin2 :=
  ⟨rfl, rfl, rfl⟩

/-- C5 counterexample. A directory holding one loadable plugin file with
stem `"foo"` whose plugin reports metadata name `"bar"`: the load attempt
succeeds (the plugin is registered under `"bar"`), yet `discover_plugins`
returns no result entry at all for that attempt, because the success branch
looks the plugin up under the file stem. This falsifies the claimed
one-entry-per-attempt behaviour. -/
theorem c5_mismatched_stem_counterexample :
    (discover_plugins mgr0
        [DirEntry.readable [{ stem := "foo", ext := some "so",
                              file := LibFile.valid mismatchPlugin }]]).2 = []
    ∧ lookupP (discover_plugins mgr0
        [DirEntry.readable [{ stem := "foo", ext := some "so",
                              file := LibFile.valid mismatchPlugin }]]).1.plugins
        "bar" = some mismatchPlugin :=
  ⟨rfl, rfl⟩

/-- Unfolding of the success path of `load_plugin` for a valid file whose
plugin initializes and reports the supported API version. -/
theorem load_plugin_valid_ok (m : PluginManager) (p : PluginImpl)
    (hi : p.initResult = Except.ok ())
    (hv : p.metadata.api_version = PLUGIN_API_VERSION) :
    load_plugin m (LibFile.valid p) =
      (Except.ok (),
       { m with plugins := insertPlugin m.plugins p.metadata.name p,
                libraries := insertKey m.libraries p.metadata.name },
       (match lookupP m.plugins p.metadata.name with
        | some _ => [Event.dropInstance p.metadata.name]
        | none => []) ++
       (if p.metadata.name ∈ m.libraries
        then [Event.dropLibrary p.metadata.name] else [])) := by
  simp [load_plugin, hi, hv]

/-- C6. A plugin file whose reported `api_version` differs from
`PLUGIN_API_VERSION` (and that passes the earlier loader stages) makes
`load_plugin` return `IncompatibleVersion`, leaves the manager unchanged —
so the plugin is not inserted — and its metadata does not appear in
`get_all_plugin_metadata` afterwards. -/
theorem c6_incompatible_version_rejected (m : PluginManager) (p : PluginImpl)
    (hinit : p.initResult = Except.ok ())
    (hv : p.metadata.api_version ≠ PLUGIN_API_VERSION) :
    (load_plugin m (LibFile.valid p)).1 =
        Except.error (PluginError.incompatibleVersion p.metadata.name)
    ∧ (load_plugin m (LibFile.valid p)).2.1 = m
    ∧ (p.metadata ∉ get_all_plugin_metadata m →
        p.metadata ∉ get_all_plugin_metadata (load_plugin m (LibFile.valid p)).2.1) := by
  have h : load_plugin m (LibFile.valid p) =
      (Except.error (PluginError.incompatibleVersion p.metadata.name), m, []) := by
    simp [load_plugin, hinit, hv]
  exact ⟨by rw [h], by rw [h], fun hnot => by rw [h]; exact hnot⟩

/-- C7. If `unload_plugin` returns `Ok` then `shutdown()` was invoked
exactly once during the unload and every subsequent `execute_plugin` on
that name fails with `NotFound`; and `execute_plugin` on any name with no
registered plugin fails with `NotFound`. -/
theorem c7_unload_then_execute_not_found :
    (∀ (m : PluginManager) (name : String),
      (keys m.plugins).Nodup →
      (unload_plugin m name).1 = Except.ok () →
      shutdownCount (unload_plugin m name).2.2 name = 1 ∧
      ∀ params, execute_plugin (unload_plugin m name).2.1 name params =
        ExecResult.hostErr (PluginError.notFound name))
    ∧ (∀ (m : PluginManager) (name : String) params,
        lookupP m.plugins name = none →
        execute_plugin m name params =
          ExecResult.hostErr (PluginError.notFound name)) := by
  constructor
  · intro m name hnd hok
    rcases hre : removeEntry m.plugins name with ⟨op, rest⟩
    have hrest : lookupP rest name = none := by
      have h := lookupP_removeEntry_self m.plugins name hnd
      rw [hre] at h
      exact h
    cases op with
    | none => simp [unload_plugin, hre] at hok
    | some p =>
        cases hs : p.shutdownRes with
        | error e => simp [unload_plugin, hre, hs] at hok
        | ok u =>
            constructor
            · by_cases hm : name ∈ m.libraries <;>
                simp [unload_plugin, hre, hs, hm, shutdownCount, isShutdownFor]
            · intro params
              simp [unload_plugin, hre, hs, execute_plugin, with_plugin, hrest]
  · intro m name params hnone
    simp [execute_plugin, with_plugin, hnone]

/-- C10. For a registered plugin whose `shutdown()` fails, `unload_plugin`
returns the error but has already removed the plugin from the plugin map —
a subsequent `execute_plugin` on that name returns `NotFound` — while the
libraries map is left exactly as it was (the entry stays in place). -/
theorem c10_unload_not_atomic_on_error (m : PluginManager) (name : String)
    (p : PluginImpl) (msg : String)
    (hnd : (keys m.plugins).Nodup)
    (hp : lookupP m.plugins name = some p)
    (hs : p.shutdownRes = Except.error msg) :
    (unload_plugin m name).1 = Except.error (PluginError.initError msg)
    ∧ lookupP (unload_plugin m name).2.1.plugins name = none
    ∧ (∀ params, execute_plugin (unload_plugin m name).2.1 name params =
        ExecResult.hostErr (PluginError.notFound name))
    ∧ (unload_plugin m name).2.1.libraries = m.libraries := by
  rcases hre : removeEntry m.plugins name with ⟨op, rest⟩
  have hop : op = some p := by
    have h := removeEntry_fst m.plugins name
    rw [hre] at h
    simpa [hp] using h
  subst hop
  have hrest : lookupP rest name = none := by
    have h := lookupP_removeEntry_self m.plugins name hnd
    rw [hre] at h
    exact h
  refine ⟨?_, ?_, ?_, ?_⟩
  · simp [unload_plugin, hre, hs]
  · simp [unload_plugin, hre, hs, hrest]
  · intro params
    simp [unload_plugin, hre, hs, execute_plugin, with_plugin, hrest]
  · simp [unload_plugin, hre, hs]

/-- C4 amended. The source's duplicate-name policy is fixed and
deterministic: the second load always succeeds and silently replaces the
first — the name then maps to exactly the second plugin, no `shutdown()`
is ever called during either load — and the plugin map still has unique
keys, so no name maps to more than one live plugin at a time. -/
theorem c4_amended_silent_replace (m : PluginManager) (p1 p2 : PluginImpl)
    (n : String)
    (h1i : p1.initResult = Except.ok ())
    (h2i : p2.initResult = Except.ok ())
    (h1v : p1.metadata.api_version = PLUGIN_API_VERSION)
    (h2v : p2.metadata.api_version = PLUGIN_API_VERSION)
    (_h1n : p1.metadata.name = n) (h2n : p2.metadata.name = n)
    (hnd : (keys m.plugins).Nodup) :
    (load_plugin m (LibFile.valid p1)).1 = Except.ok ()
    ∧ (load_plugin (load_plugin m (LibFile.valid p1)).2.1
        (LibFile.valid p2)).1 = Except.ok ()
    ∧ lookupP (load_plugin (load_plugin m (LibFile.valid p1)).2.1
        (LibFile.valid p2)).2.1.plugins n = some p2
    ∧ shutdownCount ((load_plugin m (LibFile.valid p1)).2.2
        ++ (load_plugin (load_plugin m (LibFile.valid p1)).2.1
              (LibFile.valid p2)).2.2) n = 0
    ∧ (keys (load_plugin (load_plugin m (LibFile.valid p1)).2.1
        (LibFile.valid p2)).2.1.plugins).Nodup := by
  have hL1 := load_plugin_valid_ok m p1 h1i h1v
  have hL2 := load_plugin_valid_ok (load_plugin m (LibFile.valid p1)).2.1 p2 h2i h2v
  refine ⟨by rw [hL1], by rw [hL2], ?_, ?_, ?_⟩
  · rw [hL2, hL1]
    simp only [h2n]
    exact lookupP_insertPlugin_self _ n p2
  · rw [shutdownCount_append, shutdownCount_load_plugin,
      shutdownCount_load_plugin]
  · rw [hL2, hL1]
    exact nodup_keys_insertPlugin _ _ _ (nodup_keys_insertPlugin _ _ _ hnd)

/-- C5 amended. Discovery never aborts: a plugin-file whose load fails
contributes exactly one error entry; a plugin-file whose load succeeds
contributes exactly one success entry precisely when a plugin is registered
under the file's stem after the load — carrying that registered plugin's
metadata, which is the loaded plugin's own metadata when its reported name
equals the stem and may be another already-registered plugin's metadata
when it does not — and no entry when no plugin is registered under the
stem; a missing directory contributes nothing and raises no error; and a
directory with two loadable stem-named plugins followed by a missing
directory yields exactly the two successes. -/
theorem c5_amended_discover_entries :
    (∀ (m : PluginManager) (s msg : String),
      (discover_plugins m
          [DirEntry.readable
             [{ stem := s, ext := some "so",
                file := LibFile.openFail msg }]]).2
        = [Except.error (PluginError.loadError msg)])
    ∧ (∀ (m : PluginManager) (p : PluginImpl) (s : String),
        p.initResult = Except.ok () →
        p.metadata.api_version = PLUGIN_API_VERSION →
        (discover_plugins m
            [DirEntry.readable
               [{ stem := s, ext := some "so",
                  file := LibFile.valid p }]]).2
          = match lookupP (load_plugin m (LibFile.valid p)).2.1.plugins s with
            | some q => [Except.ok q.metadata]
            | none => [])
    ∧ (∀ (m : PluginManager) (dirs : List DirEntry),
        discover_plugins m (DirEntry.missing :: dirs) = discover_plugins m dirs)
    ∧ (∀ (m : PluginManager) (p1 p2 : PluginImpl),
        p1.initResult = Except.ok () → p2.initResult = Except.ok () →
        p1.metadata.api_version = PLUGIN_API_VERSION →
        p2.metadata.api_version = PLUGIN_API_VERSION →
        (discover_plugins m
            [DirEntry.readable
               [{ stem := p1.metadata.name, ext := some "so",
                  file := LibFile.valid p1 },
                { stem := p2.metadata.name, ext := some "so",
                  file := LibFile.valid p2 }],
             DirEntry.missing]).2
          = [Except.ok p1.metadata, Except.ok p2.metadata]) := by
  refine ⟨?_, ?_, ?_, ?_⟩
  · intro m s msg
    simp [discover_plugins, discoverDir, load_plugin]
  · intro m p s hi hv
    have hL := load_plugin_valid_ok m p hi hv
    simp only [discover_plugins, discoverDir, List.foldl]
    rw [hL]
    simp only [with_plugin]
    cases hq : lookupP (insertPlugin m.plugins p.metadata.name p) s with
    | none => simp [hq]
    | some q => simp [hq]
  · intro m dirs
    rfl
  · intro m p1 p2 h1i h2i h1v h2v
    simp only [discover_plugins, discoverDir, List.foldl]
    rw [load_plugin_valid_ok m p1 h1i h1v]
    simp only [with_plugin, lookupP_insertPlugin_self]
    rw [load_plugin_valid_ok _ p2 h2i h2v]
    simp only [with_plugin, lookupP_insertPlugin_self]
    simp

/-- Witness for C4: instantiates the amended duplicate-name theorem at two
concrete plugins both named `"x"` loaded into a fresh manager. -/
theorem c4_amended_silent_replace_witness :
    (load_plugin (load_plugin mgr0 (LibFile.valid xPlugin1)).2.1
        (LibFile.valid xPlugin2)).1 = Except.ok ()
    ∧ lookupP (load_plugin (load_plugin mgr0 (LibFile.valid xPlugin1)).2.1
        (LibFile.valid xPlugin2)).2.1.plugins "x" = some xPlugin2 :=
  ⟨(c4_amended_silent_replace mgr0 xPlugin1 xPlugin2 "x"
      rfl rfl rfl rfl rfl rfl (by decide)).2.1,
   (c4_amended_silent_replace mgr0 xPlugin1 xPlugin2 "x"
      rfl rfl rfl rfl rfl rfl (by decide)).2.2.1⟩

/-- Witness for C5: the collision case — a manager already holding plugin
`"foo"` scans a file with stem `"foo"` whose plugin reports name `"bar"`,
and gets one success entry carrying the registered `"foo"` plugin's
metadata — plus the two-stem-named-plugins-and-missing-directory
scenario. -/
theorem c5_amended_discover_entries_witness :
    (discover_plugins fooState
        [DirEntry.readable
           [{ stem := "foo", ext := some "so",
              file := LibFile.valid mismatchPlugin }]]).2
      = [Except.ok fooPlugin.metadata]
    ∧ (discover_plugins mgr0
        [DirEntry.readable
           [{ stem := "p", ext := some "so", file := LibFile.valid okPlugin },
            { stem := "x", ext := some "so", file := LibFile.valid xPlugin1 }],
         DirEntry.missing]).2
      = [Except.ok okPlugin.metadata, Except.ok xPlugin1.metadata] :=
  ⟨c5_amended_discover_entries.2.1 fooState mismatchPlugin "foo" rfl rfl,
   c5_amended_discover_entries.2.2.2 mgr0 okPlugin xPlugin1 rfl rfl rfl rfl⟩

/-- Witness for C6: loading the concrete API-version-2 plugin into a fresh
manager fails with `IncompatibleVersion`. -/
theorem c6_incompatible_version_rejected_witness :
    (load_plugin mgr0 (LibFile.valid v2Plugin)).1 =
      Except.error (PluginError.incompatibleVersion "p") :=
  (c6_incompatible_version_rejected mgr0 v2Plugin rfl (by decide)).1

/-- Witness for C7: unloading the concrete plugin `"p"` calls `shutdown()`
once and a later execute returns `NotFound`; executing a never-loaded name
returns `NotFound`. -/
theorem c7_unload_then_execute_not_found_witness :
    shutdownCount (unload_plugin okState "p").2.2 "p" = 1
    ∧ execute_plugin (unload_plugin okState "p").2.1 "p" [] =
        ExecResult.hostErr (PluginError.notFound "p")
    ∧ execute_plugin mgr0 "q" [] =
        ExecResult.hostErr (PluginError.notFound "q") :=
  ⟨(c7_unload_then_execute_not_found.1 okState "p" (by decide) rfl).1,
   (c7_unload_then_execute_not_found.1 okState "p" (by decide) rfl).2 [],
   c7_unload_then_execute_not_found.2 mgr0 "q" [] rfl⟩

/-- Witness for C10: unloading the concrete failing-shutdown plugin `"p"`
returns the error, the plugin map no longer holds `"p"`, and the libraries
map is untouched. -/
theorem c10_unload_not_atomic_on_error_witness :
    (unload_plugin badState "p").1 = Except.error (PluginError.initError "boom")
    ∧ lookupP (unload_plugin badState "p").2.1.plugins "p" = none
    ∧ (unload_plugin badState "p").2.1.libraries = badState.libraries :=
  ⟨(c10_unload_not_atomic_on_error badState "p" badShutdownPlugin "boom"
      (by decide) rfl rfl).1,
   (c10_unload_not_atomic_on_error badState "p" badShutdownPlugin "boom"
      (by decide) rfl rfl).2.1,
   (c10_unload_not_atomic_on_error badState "p" badShutdownPlugin "boom"
      (by decide) rfl rfl).2.2.2⟩
